import Mathlib

/-!
Paddle lite tensor core: dimension utilities, Buffer store and Tensor handle.

A shallow embedding of `paddle/fluid/lite/core/tensor.h`.

* A shape (`DDim`) is a list of integers.  C++ `int` arithmetic is modelled on `Int`
  with an explicit reduction into the signed 32-bit range (`toInt32`), `size_t`
  arithmetic on `Nat` with an explicit reduction modulo `2^64`.
* Undefined behaviour (an ill-formed iterator range, a write through a dangling or
  null pointer) is the `none` result of an `Option`.
* `std::shared_ptr<Buffer>` is an index into an explicit store of Buffer cells, so
  two Tensors alias exactly when they hold the same index.
-/

namespace paddle.lite

/-! ## Dimension utilities -/

/-- Shape of a tensor, `using DDim = std::vector<int64_t>`. -/
abbrev DDim := List Int

/-- Value of a C++ `int` expression under wrap-around: the argument reduced modulo
`2^32` into the signed range `[-2^31, 2^31)`. -/
def toInt32 (x : Int) : Int := (x + 2147483648) % 4294967296 - 2147483648

/-- Value of a C++ `size_t` expression: the argument reduced modulo `2^64`. -/
def to_size_t (x : Int) : Nat := (x % 18446744073709551616).toNat

/-- `SliceDims(dims, begin, end)` is `DDim(dims.begin() + begin, dims.begin() + end - 1)`.
The range constructor is defined only when both iterators stay inside the vector and the
first is not after the last; otherwise the behaviour is undefined (`none`). -/
def SliceDims (dims : DDim) (begin end_ : Int) : Option DDim :=
  if 0 ≤ begin ∧ begin ≤ end_ - 1 ∧ end_ ≤ (dims.length : Int) then
    some ((dims.drop begin.toNat).take (end_ - 1 - begin).toNat)
  else
    none

/-- `product(dims)` is `std::accumulate(dims.begin(), dims.end(), 1,
[](int a, int b) { return a * b; })`: the accumulator is an `int`, every extent is
narrowed to `int` when it is passed to the lambda, and the product is an `int`. -/
def product (dims : DDim) : Int :=
  dims.foldl (fun a b => toInt32 (a * toInt32 b)) 1

/-- `flatten_to_2d(dims, col)` is
`DDim({product(SliceDims(dims, 0, col)), product(SliceDims(dims, col, dims.size()))})`.
The `size_t` value `dims.size()` is passed as an `int`; a vector has fewer than `2^31`
elements, so the conversion keeps the value. -/
def flatten_to_2d (dims : DDim) (col : Int) : Option DDim :=
  match SliceDims dims 0 col, SliceDims dims col (dims.length : Int) with
  | some l, some r => some [product l, product r]
  | _, _ => none

/-! ## Buffer cells and the store -/

/-- Modelled from the spec: `TargetType` is declared in `target_wrapper.h`, which is not
among the sources.  The spec describes it as an enumerated tag naming the address space
of a buffer whose default (zero) value is host memory; the tag is kept as its number. -/
abbrev TargetType := Nat

/-- Modelled from the spec: the host target, the default and zero value of the tag. -/
def kHost : TargetType := 0

/-- Level-of-detail index, `using LoD = std::vector<std::vector<size_t>>`. -/
abbrev LoD := List (List Nat)

/-- Modelled from the spec: `Buffer` is declared in `memory.h`, which is not among the
sources.  The spec describes it as the sole owner of one raw memory block, together with
the target it was allocated on and its byte capacity.  `data_` is the base address of
the block (`0` is the null pointer), `space_` the capacity in bytes, `target_` the
target, and `mem` the contents of the block, one `float`-sized slot per index.  A stored
`float` is kept as an integer code; no floating-point arithmetic is performed on it. -/
structure Buffer where
  data_ : Nat
  space_ : Nat
  target_ : TargetType
  mem : Nat → Int

/-- Modelled from the spec: a Buffer is created empty, with no allocation, on the host. -/
def Buffer.empty : Buffer := { data_ := 0, space_ := 0, target_ := kHost, mem := fun _ => 0 }

/-- Modelled from the spec: the two members of `Buffer` that `Tensor` calls and whose
bodies are in the missing `memory.h`, taken as a parameter.  `ResetLazy B target size`
is the state of the Buffer after `B.ResetLazy(target, size)`, and `assign dst src` the
state of `dst` after the copy-assignment `dst = src`; `none` is an allocation failure,
which leaves the Buffer as it was and propagates to the caller. -/
structure BufferOps where
  ResetLazy : Buffer → TargetType → Nat → Option Buffer
  assign : Buffer → Buffer → Option Buffer

/-- Modelled from the spec: `ResetLazy(target, size)` of the missing `memory.h`.  If the
Buffer already has at least `size` bytes on the same target the call is a no-op;
otherwise the old block is released and a block of exactly `size` bytes is allocated on
`target` at an address the Buffer did not have before (the null address for a block of
zero bytes), with contents the spec leaves undefined (here zeros).  An allocation of
more than `limit` bytes fails. -/
def Buffer.ResetLazy (limit : Nat) (B : Buffer) (target : TargetType) (size : Nat) :
    Option Buffer :=
  if B.target_ = target ∧ size ≤ B.space_ then some B
  else if size ≤ limit then
    some { data_ := if size = 0 then 0 else B.data_ + 1, space_ := size, target_ := target,
           mem := fun _ => 0 }
  else none

/-- Modelled from the spec: copy-assignment of the missing `memory.h`, a full data copy
(same size, same target, same contents) into a block of the destination's own. -/
def Buffer.assign (limit : Nat) (dst src : Buffer) : Option Buffer :=
  if src.space_ ≤ limit then
    some { data_ := if src.data_ = 0 then 0 else dst.data_ + 1, space_ := src.space_,
           target_ := src.target_, mem := src.mem }
  else none

/-- Modelled from the spec: the Buffer of the spec, with `limit` bytes of memory
available to a single allocation. -/
def specBuffer (limit : Nat) : BufferOps :=
  { ResetLazy := Buffer.ResetLazy limit, assign := Buffer.assign limit }

/-- A call made on a Buffer cell, recorded in the order the calls are made. -/
inductive BufferCall where
  | ResetLazy (cell : Nat) (target : TargetType) (size : Nat)
  | assign (dst src : Nat)
  deriving DecidableEq

/-- The store of Buffer cells.  A `std::shared_ptr<Buffer>` is the index of a cell;
`next` is the first index no `std::make_shared<Buffer>()` has handed out yet, and
`calls` records the calls made on the cells. -/
structure Store where
  cell : Nat → Buffer
  next : Nat
  calls : List BufferCall

/-- The store before any Tensor is constructed. -/
def Store.init : Store := { cell := fun _ => Buffer.empty, next := 0, calls := [] }

/-- A raw data pointer: the Buffer cell whose block it points into and the base
address of that block at the time the pointer was taken (`0` is the null pointer). -/
structure Ptr where
  cell : Nat
  addr : Nat
  deriving DecidableEq

/-- `buffer_->ResetLazy(target, size)` on cell `id`; the flag is `false` when the
allocation failed. -/
def Store.ResetLazy (M : BufferOps) (σ : Store) (id : Nat) (target : TargetType)
    (size : Nat) : Bool × Store :=
  match M.ResetLazy (σ.cell id) target size with
  | some B =>
    (true, { σ with cell := Function.update σ.cell id B,
                    calls := σ.calls ++ [BufferCall.ResetLazy id target size] })
  | none => (false, { σ with calls := σ.calls ++ [BufferCall.ResetLazy id target size] })

/-- `*dst = *src` on the cells `dst` and `src`; the flag is `false` when the
allocation failed. -/
def Store.assign (M : BufferOps) (σ : Store) (dst src : Nat) : Bool × Store :=
  match M.assign (σ.cell dst) (σ.cell src) with
  | some B =>
    (true, { σ with cell := Function.update σ.cell dst B,
                    calls := σ.calls ++ [BufferCall.assign dst src] })
  | none => (false, { σ with calls := σ.calls ++ [BufferCall.assign dst src] })

/-- A pointer may be dereferenced at `float` index `i` when it is not null, still is the
base address of its cell's block, and the element lies inside the block. -/
def Store.valid (σ : Store) (p : Ptr) (i : Nat) : Prop :=
  p.addr ≠ 0 ∧ (σ.cell p.cell).data_ = p.addr ∧ 4 * (i + 1) ≤ (σ.cell p.cell).space_

instance (σ : Store) (p : Ptr) (i : Nat) : Decidable (σ.valid p i) :=
  inferInstanceAs (Decidable
    (p.addr ≠ 0 ∧ (σ.cell p.cell).data_ = p.addr ∧ 4 * (i + 1) ≤ (σ.cell p.cell).space_))

/-- The write `p[i] = v` through a `float*`; `none` is undefined behaviour. -/
def Store.write (σ : Store) (p : Ptr) (i : Nat) (v : Int) : Option Store :=
  if σ.valid p i then
    some { σ with cell := Function.update σ.cell p.cell
                    { σ.cell p.cell with mem := Function.update (σ.cell p.cell).mem i v } }
  else none

/-- The read `p[i]` through a `const float*`; `none` is undefined behaviour. -/
def Store.read (σ : Store) (p : Ptr) (i : Nat) : Option Int :=
  if σ.valid p i then some ((σ.cell p.cell).mem i) else none

/-! ## Tensor -/

/-- The private members of `class Tensor`. -/
structure Tensor where
  target_ : TargetType
  dims_ : DDim
  buffer_ : Nat
  lod_ : LoD
  memory_size_ : Nat
  deriving DecidableEq

/-- What a member function leaves behind: the value it returns (`none` when an
allocation failure propagated out of the call), the Tensor and the store. -/
structure Outcome (α : Type) where
  ret : Option α
  self : Tensor
  store : Store

/-- `Tensor() : buffer_(std::make_shared<Buffer>()) {}` with the default member
initialisers `target_{TargetType::kHost}` and `memory_size_{}`. -/
def Tensor.construct (σ : Store) : Tensor × Store :=
  ({ target_ := kHost, dims_ := [], buffer_ := σ.next, lod_ := [], memory_size_ := 0 },
   { σ with cell := Function.update σ.cell σ.next Buffer.empty, next := σ.next + 1 })

/-- `data<T>()`: `static_cast<const T*>(buffer_->data())`. -/
def Tensor.data (t : Tensor) (σ : Store) : Ptr :=
  { cell := t.buffer_, addr := (σ.cell t.buffer_).data_ }

/-- `Resize(ddim)`: `dims_ = ddim`. -/
def Tensor.Resize (t : Tensor) (ddim : DDim) (σ : Store) : Outcome Unit :=
  { ret := some (), self := { t with dims_ := ddim }, store := σ }

/-- `dims()`. -/
def Tensor.dims (t : Tensor) : DDim := t.dims_

/-- `lod()`. -/
def Tensor.lod (t : Tensor) : LoD := t.lod_

/-- `memory_size()`. -/
def Tensor.memory_size (t : Tensor) : Nat := t.memory_size_

/-- `target()`. -/
def Tensor.target (t : Tensor) : TargetType := t.target_

/-- `IsInitialized()`: `buffer_->data()` converted to `bool`. -/
def Tensor.IsInitialized (t : Tensor) (σ : Store) : Bool :=
  decide ((σ.cell t.buffer_).data_ ≠ 0)

/-- The `size_t` value of `product(dims_) * sizeof(T)`: the `int` is converted to
`size_t` and the multiplication is done modulo `2^64`. -/
def byte_size (dims : DDim) (sizeofT : Nat) : Nat :=
  (to_size_t (product dims) * sizeofT) % 18446744073709551616

/-- `mutable_data<T>()`:
`memory_size_ = product(dims_) * sizeof(T); buffer_->ResetLazy(target_, memory_size_);
return static_cast<T*>(buffer_->data());`. -/
def Tensor.mutable_data (M : BufferOps) (sizeofT : Nat) (t : Tensor) (σ : Store) :
    Outcome Ptr :=
  let t1 : Tensor := { t with memory_size_ := byte_size t.dims_ sizeofT }
  let r := σ.ResetLazy M t1.buffer_ t1.target_ t1.memory_size_
  { ret := if r.1 then some (t1.data r.2) else none, self := t1, store := r.2 }

/-- `mutable_data<T>(TargetType target)`:
`target_ = target; buffer_->ResetLazy(target, memory_size());
return static_cast<T*>(buffer_->data());`.  The element size `sizeof(T)` does not occur
in the body. -/
def Tensor.mutable_data_target (M : BufferOps) (_sizeofT : Nat) (t : Tensor)
    (target : TargetType) (σ : Store) : Outcome Ptr :=
  let t1 : Tensor := { t with target_ := target }
  let r := σ.ResetLazy M t1.buffer_ target t1.memory_size
  { ret := if r.1 then some (t1.data r.2) else none, self := t1, store := r.2 }

/-- `mutable_data(size_t memory_size)`:
`buffer_->ResetLazy(target_, memory_size); return buffer_->data();`. -/
def Tensor.mutable_data_size (M : BufferOps) (t : Tensor) (memory_size : Nat)
    (σ : Store) : Outcome Ptr :=
  let r := σ.ResetLazy M t.buffer_ t.target_ memory_size
  { ret := if r.1 then some (t.data r.2) else none, self := t, store := r.2 }

/-- `mutable_data(TargetType target, size_t memory_size)`:
`target_ = target; return mutable_data(memory_size);`. -/
def Tensor.mutable_data_target_size (M : BufferOps) (t : Tensor) (target : TargetType)
    (memory_size : Nat) (σ : Store) : Outcome Ptr :=
  let t1 : Tensor := { t with target_ := target }
  t1.mutable_data_size M memory_size σ

/-- `ShareDataWith(other)`:
`buffer_ = other.buffer_; dims_ = other.dims_; target_ = other.target_;
lod_ = other.lod_;`. -/
def Tensor.ShareDataWith (t other : Tensor) (σ : Store) : Outcome Unit :=
  { ret := some (),
    self := { t with buffer_ := other.buffer_, dims_ := other.dims_,
                     target_ := other.target_, lod_ := other.lod_ },
    store := σ }

/-- `CopyDataFrom(other)`:
`dims_ = other.dims_; target_ = other.target_; lod_ = other.lod_;
*buffer_ = *other.buffer_;`. -/
def Tensor.CopyDataFrom (M : BufferOps) (t other : Tensor) (σ : Store) : Outcome Unit :=
  let t1 : Tensor := { t with dims_ := other.dims_, target_ := other.target_,
                              lod_ := other.lod_ }
  let r := σ.assign M t1.buffer_ other.buffer_
  { ret := if r.1 then some () else none, self := t1, store := r.2 }

/-- A call made through one Tensor after it was set up: `Resize`, one of the four
`mutable_data` overloads, or a write `p[i] = v` of a `float` through the Tensor's
current data pointer. -/
inductive Call where
  | Resize (ddim : DDim)
  | mutable_data (sizeofT : Nat)
  | mutable_data_target (sizeofT : Nat) (target : TargetType)
  | mutable_data_size (memory_size : Nat)
  | mutable_data_target_size (target : TargetType) (memory_size : Nat)
  | write (i : Nat) (v : Int)

/-- The Tensor and the store after one call made through Tensor `t`; `none` is undefined
behaviour (a write that is not valid).  A failed allocation leaves the state the member
function had reached, and the caller goes on from it. -/
def Call.run (M : BufferOps) (t : Tensor) (σ : Store) : Call → Option (Tensor × Store)
  | Call.Resize ddim => some ((t.Resize ddim σ).self, (t.Resize ddim σ).store)
  | Call.mutable_data sizeofT =>
    some ((t.mutable_data M sizeofT σ).self, (t.mutable_data M sizeofT σ).store)
  | Call.mutable_data_target sizeofT target =>
    some ((t.mutable_data_target M sizeofT target σ).self,
          (t.mutable_data_target M sizeofT target σ).store)
  | Call.mutable_data_size memory_size =>
    some ((t.mutable_data_size M memory_size σ).self,
          (t.mutable_data_size M memory_size σ).store)
  | Call.mutable_data_target_size target memory_size =>
    some ((t.mutable_data_target_size M target memory_size σ).self,
          (t.mutable_data_target_size M target memory_size σ).store)
  | Call.write i v => (σ.write (t.data σ) i v).map (fun σ' => (t, σ'))

/-- The Tensor and the store after a sequence of calls made through one Tensor. -/
def Call.runs (M : BufferOps) : List Call → Tensor → Store → Option (Tensor × Store)
  | [], t, σ => some (t, σ)
  | c :: cs, t, σ => (c.run M t σ).bind (fun x => Call.runs M cs x.1 x.2)

/-- Modelled from the spec: the contract of `ResetLazy(target, size)`.  A successful call
is a no-op when the Buffer already has at least `size` bytes on the same target;
otherwise the Buffer afterwards has exactly `size` bytes on `target`, in a block (for a
non-zero `size`) at a non-null address other than the old one. -/
def BufferOps.ResetLazy_contract (M : BufferOps) : Prop :=
  ∀ (B B' : Buffer) (target : TargetType) (size : Nat),
    M.ResetLazy B target size = some B' →
    ((B.target_ = target ∧ size ≤ B.space_) → B' = B) ∧
    (¬ (B.target_ = target ∧ size ≤ B.space_) →
      B'.target_ = target ∧ B'.space_ = size ∧
      (0 < size → B'.data_ ≠ 0 ∧ B'.data_ ≠ B.data_))

/-- Modelled from the spec: a Buffer with a non-zero capacity owns a block, so its data
pointer is not null.  The empty Buffer satisfies this, and a `ResetLazy` that obeys its
contract preserves it. -/
def Buffer.owns_block (B : Buffer) : Prop := 0 < B.space_ → B.data_ ≠ 0

/-- Modelled from the spec: the contract of the copy-assignment of Buffer, a full data
copy.  After a successful `dst = src` the destination has the capacity and the contents
of the source, and a block of its own exactly when the source has one. -/
def BufferOps.assign_contract (M : BufferOps) : Prop :=
  ∀ (dst src B' : Buffer), M.assign dst src = some B' →
    B'.space_ = src.space_ ∧ B'.mem = src.mem ∧ (B'.data_ = 0 ↔ src.data_ = 0)

/-- Every Buffer of the store with a non-zero capacity owns a block. -/
def Store.owns_blocks (σ : Store) : Prop := ∀ id, (σ.cell id).owns_block

instance (B : Buffer) : Decidable B.owns_block :=
  inferInstanceAs (Decidable (0 < B.space_ → B.data_ ≠ 0))

/-- The sequence `t.Resize(d); t.mutable_data<T>();`. -/
def Resize_mutable_data (M : BufferOps) (sizeofT : Nat) (t : Tensor) (d : DDim)
    (σ : Store) : Outcome Ptr :=
  (t.Resize d σ).self.mutable_data M sizeofT (t.Resize d σ).store

/-- The default-constructed Tensors of the scenarios: `a`, then `b`, then `c`, each
constructed from the initial store in this order, and the store they leave. -/
def scene : Tensor × Tensor × Tensor × Store :=
  let a := Tensor.construct Store.init
  let b := Tensor.construct a.2
  let c := Tensor.construct b.2
  (a.1, b.1, c.1, c.2)

/-- The scenario "Tensor `a` allocated with shape `[2, 3]` on the host target":
`a.Resize({2, 3}); a.mutable_data<float>();` on the first Tensor of `scene`. -/
def host_2x3 (M : BufferOps) : Outcome Ptr :=
  (scene.1.Resize [2, 3] scene.2.2.2).self.mutable_data M 4
    (scene.1.Resize [2, 3] scene.2.2.2).store

/-! ## The second overload of product, the exact product, and the mutating calls -/

/-- `product(begin, end)`, the overload on a range of `DDim::const_iterator`:
`std::accumulate(begin, end, 1, [](int a, int b) { return a * b; })`.  The iterators
are the positions `begin` and `end_` of the vector `dims`; a range whose end is before
its begin or past the end of the vector is undefined (`none`). -/
def product_iter (dims : DDim) (begin end_ : Nat) : Option Int :=
  if begin ≤ end_ ∧ end_ ≤ dims.length then
    some (((dims.drop begin).take (end_ - begin)).foldl
      (fun a b => toInt32 (a * toInt32 b)) 1)
  else
    none

/-- The exact integer product of all the extents of a shape, the multiplicative
reduction with identity 1 in the words of the spec, without any 32-bit arithmetic. -/
def exact_product (dims : DDim) : Int := dims.foldl (fun a b => a * b) 1

/-- The outcome of a member function with its return value forgotten. -/
def Outcome.void {α : Type} (r : Outcome α) : Outcome Unit :=
  { ret := r.ret.map (fun _ => ()), self := r.self, store := r.store }

/-- The mutating member functions of `Tensor`, with their arguments. -/
inductive Mutation where
  | Resize (ddim : DDim)
  | mutable_data (sizeofT : Nat)
  | mutable_data_target (sizeofT : Nat) (target : TargetType)
  | mutable_data_size (memory_size : Nat)
  | mutable_data_target_size (target : TargetType) (memory_size : Nat)
  | ShareDataWith (other : Tensor)
  | CopyDataFrom (other : Tensor)

/-- The outcome of one mutating member function called on Tensor `t`; the return value
is `none` exactly when an allocation failure propagated out of the call. -/
def Mutation.apply (M : BufferOps) (t : Tensor) (σ : Store) : Mutation → Outcome Unit
  | Mutation.Resize ddim => t.Resize ddim σ
  | Mutation.mutable_data sizeofT => (t.mutable_data M sizeofT σ).void
  | Mutation.mutable_data_target sizeofT target =>
    (t.mutable_data_target M sizeofT target σ).void
  | Mutation.mutable_data_size memory_size => (t.mutable_data_size M memory_size σ).void
  | Mutation.mutable_data_target_size target memory_size =>
    (t.mutable_data_target_size M target memory_size σ).void
  | Mutation.ShareDataWith other => t.ShareDataWith other σ
  | Mutation.CopyDataFrom other => t.CopyDataFrom M other σ

/-- The state of the Tensor that a mutating member function has reached when the call
it makes on the Buffer is entered: the members assigned before that call have their new
values.  `Resize` and `ShareDataWith` make no call on a Buffer. -/
def Mutation.before_buffer_call (t : Tensor) : Mutation → Tensor
  | Mutation.Resize _ => t
  | Mutation.mutable_data sizeofT => { t with memory_size_ := byte_size t.dims_ sizeofT }
  | Mutation.mutable_data_target _ target => { t with target_ := target }
  | Mutation.mutable_data_size _ => t
  | Mutation.mutable_data_target_size target _ => { t with target_ := target }
  | Mutation.ShareDataWith _ => t
  | Mutation.CopyDataFrom other =>
    { t with dims_ := other.dims_, target_ := other.target_, lod_ := other.lod_ }

end paddle.lite

namespace paddle.operators

/-! ## Shape inference of the modified Huber loss operator -/

/-- The shape of a `framework::Tensor`, `framework::DDim`, as the list of its extents. -/
abbrev DDim := List Int

end paddle.operators

namespace paddle.lite

/-! ## The dimension utilities on the code -/

/-- C10: `SliceDims(dims, begin, end)` is claimed to be the extents over the half-open
range `[begin, end)`.  On the shape `[4, 1]` with `begin = 0`, `end = 2` the code returns
`[4]`, one element instead of the two of `[4, 1]`, and with `begin = end = 1` the
iterator range is ill-formed instead of empty. -/
theorem SliceDims_drops_last_axis :
    SliceDims [4, 1] 0 2 = some [4] ∧ SliceDims [4, 1] 0 2 ≠ some [4, 1] ∧
    SliceDims [4, 1] 1 1 = none := by
  decide

/-- C8: `flatten_to_2d([4, 1], 1)` is claimed to be `[4, 1]`, the products of the extents
before and from column 1.  The code returns `[1, 1]`, since both slices it takes are
empty. -/
theorem flatten_to_2d_scenario_value :
    flatten_to_2d [4, 1] 1 = some [1, 1] ∧ flatten_to_2d [4, 1] 1 ≠ some [4, 1] := by
  decide

/-- C9: the product of `flatten_to_2d(dims, col)` is claimed to equal `product(dims)`.
For `dims = [4, 1]` and `col = 1` the code returns a 2-element shape of product 1,
while `product(dims)` is 4; for `col = 0` and `col = 2` the result is undefined. -/
theorem flatten_to_2d_loses_product :
    (∃ d, flatten_to_2d [4, 1] 1 = some d ∧ d.length = 2 ∧ product d = 1) ∧
    product [4, 1] = 4 ∧ flatten_to_2d [4, 1] 0 = none ∧ flatten_to_2d [4, 1] 2 = none := by
  refine ⟨⟨[1, 1], ?_, ?_, ?_⟩, ?_, ?_, ?_⟩ <;> decide

/-! ## Frame lemmas for the store -/

theorem Store.ResetLazy_cell_of_ne (M : BufferOps) (σ : Store) (id id' : Nat)
    (target : TargetType) (size : Nat) (h : id' ≠ id) :
    (σ.ResetLazy M id target size).2.cell id' = σ.cell id' := by
  unfold Store.ResetLazy
  cases M.ResetLazy (σ.cell id) target size <;> simp [Function.update_noteq h]

theorem Store.ResetLazy_calls (M : BufferOps) (σ : Store) (id : Nat)
    (target : TargetType) (size : Nat) :
    (σ.ResetLazy M id target size).2.calls
      = σ.calls ++ [BufferCall.ResetLazy id target size] := by
  unfold Store.ResetLazy
  cases M.ResetLazy (σ.cell id) target size <;> rfl

theorem Store.assign_cell_of_ne (M : BufferOps) (σ : Store) (dst src id' : Nat)
    (h : id' ≠ dst) : (σ.assign M dst src).2.cell id' = σ.cell id' := by
  unfold Store.assign
  cases M.assign (σ.cell dst) (σ.cell src) <;> simp [Function.update_noteq h]

theorem Store.assign_next (M : BufferOps) (σ : Store) (dst src : Nat) :
    (σ.assign M dst src).2.next = σ.next := by
  unfold Store.assign
  cases M.assign (σ.cell dst) (σ.cell src) <;> rfl

theorem Store.write_cell_of_ne (σ σ' : Store) (p : Ptr) (i : Nat) (v : Int) (id' : Nat)
    (h : id' ≠ p.cell) (hw : σ.write p i v = some σ') : σ'.cell id' = σ.cell id' := by
  unfold Store.write at hw
  split at hw
  · cases hw; simp [Function.update_noteq h]
  · cases hw

/-! ## The Tensor member functions on the code -/

/-- C6: `mutable_data(n)` and `mutable_data(g, n)` are claimed to leave
`memory_size() == n`.  Neither body assigns `memory_size_`: for every Tensor the cached
size after the call is the one from before, so on a default-constructed Tensor
`memory_size()` is 0 after `mutable_data(16)` and after `mutable_data(kHost, 16)`,
whatever the Buffer does. -/
theorem mutable_data_size_keeps_memory_size (M : BufferOps) (t : Tensor) (g : TargetType)
    (n : Nat) (σ : Store) :
    (t.mutable_data_size M n σ).self.memory_size = t.memory_size ∧
    (t.mutable_data_target_size M g n σ).self.memory_size = t.memory_size ∧
    (scene.1.mutable_data_size M 16 scene.2.2.2).self.memory_size = 0 ∧
    (scene.1.mutable_data_target_size M kHost 16 scene.2.2.2).self.memory_size = 0 :=
  ⟨rfl, rfl, rfl, rfl⟩

/-- C7: `mutable_data<T>(g)` is claimed to set `memory_size()` to
`product(d) * sizeof(T)` and to ask the Buffer for that many bytes on `g`.  The body
sets the target to `g` but neither recomputes nor assigns the size: it asks `ResetLazy`
for the cached `memory_size()` bytes.  On a default-constructed Tensor resized to
`[2, 3]`, `mutable_data<float>(kHost)` leaves `memory_size() == 0` and requests 0 bytes,
where `mutable_data<float>()` stores and requests 24. -/
theorem mutable_data_target_uses_cached_size (M : BufferOps) (sizeofT : Nat) (t : Tensor)
    (g : TargetType) (σ : Store) :
    (t.mutable_data_target M sizeofT g σ).self.target = g ∧
    (t.mutable_data_target M sizeofT g σ).self.memory_size = t.memory_size ∧
    (t.mutable_data_target M sizeofT g σ).store.calls
      = σ.calls ++ [BufferCall.ResetLazy t.buffer_ g t.memory_size] ∧
    ((scene.1.Resize [2, 3] scene.2.2.2).self.mutable_data_target M 4 kHost
        scene.2.2.2).self.memory_size = 0 ∧
    ((scene.1.Resize [2, 3] scene.2.2.2).self.mutable_data_target M 4 kHost
        scene.2.2.2).store.calls = [BufferCall.ResetLazy 0 kHost 0] ∧
    (host_2x3 M).self.memory_size = 24 ∧
    (host_2x3 M).store.calls = [BufferCall.ResetLazy 0 kHost 24] := by
  refine ⟨rfl, rfl, ?_, rfl, ?_, ?_, ?_⟩
  · exact Store.ResetLazy_calls M σ _ _ _
  · exact Store.ResetLazy_calls M _ _ _ _
  · show byte_size [2, 3] 4 = 24
    decide
  · exact Store.ResetLazy_calls M _ _ _ _

/-- C4: after `b.ShareDataWith(a)`, `b` has the dims, target and LoD of `a` and holds the
same Buffer as `a` (so `IsInitialized()` and `data()` agree in every store), `a` is
unchanged also when `a` and `b` are the same Tensor, the call returns, and the store is
the one from before: no Buffer changed and no call was made on a Buffer, so nothing was
allocated.  In the scenario of `a` allocated with shape `[2, 3]` on the host and `b`
default-constructed, `b.dims() == [2, 3]` and `b.target() == kHost`. -/
theorem ShareDataWith_aliases_without_allocating (a b : Tensor) (σ : Store) :
    (b.ShareDataWith a σ).self.dims = a.dims ∧
    (b.ShareDataWith a σ).self.target = a.target ∧
    (b.ShareDataWith a σ).self.lod = a.lod ∧
    (b.ShareDataWith a σ).self.buffer_ = a.buffer_ ∧
    (∀ τ : Store, (b.ShareDataWith a σ).self.IsInitialized τ = a.IsInitialized τ) ∧
    (∀ τ : Store, (b.ShareDataWith a σ).self.data τ = a.data τ) ∧
    (a.ShareDataWith a σ).self = a ∧
    (b.ShareDataWith a σ).ret = some () ∧
    (b.ShareDataWith a σ).store = σ ∧
    (scene.2.1.ShareDataWith (host_2x3 (specBuffer 1024)).self
        (host_2x3 (specBuffer 1024)).store).self.dims = [2, 3] ∧
    (scene.2.1.ShareDataWith (host_2x3 (specBuffer 1024)).self
        (host_2x3 (specBuffer 1024)).store).self.target = kHost ∧
    (host_2x3 (specBuffer 1024)).self.IsInitialized (host_2x3 (specBuffer 1024)).store
      = true :=
  ⟨rfl, rfl, rfl, rfl, fun _ => rfl, fun _ => rfl, rfl, rfl, rfl, rfl, rfl, by decide⟩

/-! ## Integer ranges -/

theorem toInt32_range (x : Int) : -2147483648 ≤ toInt32 x ∧ toInt32 x < 2147483648 := by
  unfold toInt32
  omega

theorem product_range (dims : DDim) :
    -2147483648 ≤ product dims ∧ product dims < 2147483648 := by
  unfold product
  have key : ∀ (l : DDim) (acc : Int), (-2147483648 ≤ acc ∧ acc < 2147483648) →
      (-2147483648 ≤ l.foldl (fun a b => toInt32 (a * toInt32 b)) acc ∧
        l.foldl (fun a b => toInt32 (a * toInt32 b)) acc < 2147483648) := by
    intro l
    induction l with
    | nil => intro acc h; simpa using h
    | cons x xs ih =>
      intro acc _
      simp only [List.foldl_cons]
      exact ih _ (toInt32_range _)
  exact key dims 1 (by omega)

theorem byte_size_of_nonneg (dims : DDim) (h : 0 ≤ product dims) :
    (byte_size dims 4 : Int) = product dims * 4 := by
  have hr := (product_range dims).2
  unfold byte_size to_size_t
  omega

/-! ## The spec-modelled Buffer obeys the contract -/

theorem specBuffer_ResetLazy_contract (limit : Nat) :
    (specBuffer limit).ResetLazy_contract := by
  intro B B' target size h
  simp only [specBuffer, Buffer.ResetLazy] at h
  constructor
  · intro hc
    rw [if_pos hc] at h
    exact (Option.some.inj h).symm
  · intro hc
    rw [if_neg hc] at h
    split at h
    · cases h
      refine ⟨rfl, rfl, fun hs => ?_⟩
      have : size ≠ 0 := by omega
      simp [this]
    · cases h

theorem ResetLazy_contract_owns_block (M : BufferOps) (hM : M.ResetLazy_contract)
    (B B' : Buffer) (target : TargetType) (size : Nat) (hB : B.owns_block)
    (h : M.ResetLazy B target size = some B') : B'.owns_block := by
  obtain ⟨h1, h2⟩ := hM B B' target size h
  by_cases hc : B.target_ = target ∧ size ≤ B.space_
  · rw [h1 hc]; exact hB
  · obtain ⟨_, hs, hd⟩ := h2 hc
    intro hpos
    exact (hd (by omega)).1

theorem specBuffer_assign_contract (limit : Nat) : (specBuffer limit).assign_contract := by
  intro dst src B' h
  simp only [specBuffer, Buffer.assign] at h
  split at h
  · cases h
    refine ⟨rfl, rfl, ?_⟩
    by_cases hs : src.data_ = 0 <;> simp [hs]
  · cases h

/-! ## Every reachable Buffer with a capacity owns a block -/

theorem Store.init_owns_blocks : Store.init.owns_blocks := by
  intro id h
  exact absurd h (Nat.lt_irrefl 0)

theorem Tensor.construct_owns_blocks (σ : Store) (h : σ.owns_blocks) :
    (Tensor.construct σ).2.owns_blocks := by
  intro id
  by_cases hid : id = σ.next
  · subst hid
    simp only [Tensor.construct, Function.update_same]
    intro h0
    exact absurd h0 (Nat.lt_irrefl 0)
  · simp only [Tensor.construct, Function.update_noteq hid]
    exact h id

theorem Store.ResetLazy_owns_blocks (M : BufferOps) (hM : M.ResetLazy_contract) (σ : Store)
    (id : Nat) (target : TargetType) (size : Nat) (h : σ.owns_blocks) :
    (σ.ResetLazy M id target size).2.owns_blocks := by
  intro id'
  by_cases hid : id' = id
  · subst hid
    unfold Store.ResetLazy
    cases hR : M.ResetLazy (σ.cell id') target size with
    | none => exact h id'
    | some B' =>
      simp only [Function.update_same]
      exact ResetLazy_contract_owns_block M hM _ B' target size (h id') hR
  · rw [Store.ResetLazy_cell_of_ne M σ id id' target size hid]
    exact h id'

theorem Store.assign_owns_blocks (M : BufferOps) (hM : M.assign_contract) (σ : Store)
    (dst src : Nat) (h : σ.owns_blocks) : (σ.assign M dst src).2.owns_blocks := by
  intro id'
  by_cases hid : id' = dst
  · subst hid
    unfold Store.assign
    cases hA : M.assign (σ.cell id') (σ.cell src) with
    | none => exact h id'
    | some B' =>
      simp only [Function.update_same]
      obtain ⟨hs, _, hd⟩ := hM _ _ B' hA
      intro hpos hz
      exact h src (hs ▸ hpos) (hd.mp hz)
  · rw [Store.assign_cell_of_ne M σ dst src id' hid]
    exact h id'

theorem Store.write_owns_blocks (σ σ' : Store) (p : Ptr) (i : Nat) (v : Int)
    (h : σ.owns_blocks) (hw : σ.write p i v = some σ') : σ'.owns_blocks := by
  intro id'
  by_cases hid : id' = p.cell
  · subst hid
    unfold Store.write at hw
    split at hw
    · cases hw
      simp only [Function.update_same]
      exact h p.cell
    · cases hw
  · rw [Store.write_cell_of_ne σ σ' p i v id' hid hw]
    exact h id'

/-! ## Reads, writes and calls through one Tensor -/

theorem Store.write_then_read (σ : Store) (p : Ptr) (i : Nat) (v : Int) (t : Tensor)
    (hv : σ.valid p i) (ht : t.buffer_ = p.cell) :
    (σ.write p i v).bind (fun σ' => σ'.read (t.data σ') i) = some v := by
  obtain ⟨h0, h1, h2⟩ := hv
  have hv' : σ.valid p i := ⟨h0, h1, h2⟩
  simp only [Store.write, if_pos hv', Option.some_bind, Store.read, Tensor.data, ht]
  have hv2 : Store.valid
      { σ with cell := Function.update σ.cell p.cell
                 { σ.cell p.cell with mem := Function.update (σ.cell p.cell).mem i v } }
      { cell := p.cell,
        addr := (Function.update σ.cell p.cell
          { σ.cell p.cell with mem := Function.update (σ.cell p.cell).mem i v } p.cell).data_ }
      i := by
    simp only [Store.valid, Function.update_same]
    exact ⟨h1 ▸ h0, trivial, h2⟩
  rw [if_pos hv2]
  simp

theorem Tensor.mutable_data_ret_cell (M : BufferOps) (sizeofT : Nat) (t : Tensor)
    (σ : Store) (p : Ptr) (hp : (t.mutable_data M sizeofT σ).ret = some p) :
    p.cell = t.buffer_ := by
  simp only [Tensor.mutable_data] at hp
  split at hp
  · cases hp; rfl
  · cases hp

theorem Call.run_frame (M : BufferOps) (c : Call) (t t' : Tensor) (σ σ' : Store)
    (h : c.run M t σ = some (t', σ')) :
    t'.buffer_ = t.buffer_ ∧ ∀ id, id ≠ t.buffer_ → σ'.cell id = σ.cell id := by
  cases c with
  | Resize ddim =>
    simp only [Call.run, Option.some.injEq, Prod.mk.injEq] at h
    obtain ⟨rfl, rfl⟩ := h
    exact ⟨rfl, fun _ _ => rfl⟩
  | mutable_data sizeofT =>
    simp only [Call.run, Option.some.injEq, Prod.mk.injEq] at h
    obtain ⟨rfl, rfl⟩ := h
    exact ⟨rfl, fun id hid => Store.ResetLazy_cell_of_ne M σ _ id _ _ hid⟩
  | mutable_data_target sizeofT target =>
    simp only [Call.run, Option.some.injEq, Prod.mk.injEq] at h
    obtain ⟨rfl, rfl⟩ := h
    exact ⟨rfl, fun id hid => Store.ResetLazy_cell_of_ne M σ _ id _ _ hid⟩
  | mutable_data_size memory_size =>
    simp only [Call.run, Option.some.injEq, Prod.mk.injEq] at h
    obtain ⟨rfl, rfl⟩ := h
    exact ⟨rfl, fun id hid => Store.ResetLazy_cell_of_ne M σ _ id _ _ hid⟩
  | mutable_data_target_size target memory_size =>
    simp only [Call.run, Option.some.injEq, Prod.mk.injEq] at h
    obtain ⟨rfl, rfl⟩ := h
    exact ⟨rfl, fun id hid => Store.ResetLazy_cell_of_ne M σ _ id _ _ hid⟩
  | write i v =>
    simp only [Call.run, Option.map_eq_some', Prod.mk.injEq] at h
    obtain ⟨τ, hw, rfl, rfl⟩ := h
    exact ⟨rfl, fun id hid => Store.write_cell_of_ne σ τ _ i v id hid hw⟩

theorem Call.runs_frame (M : BufferOps) (cs : List Call) :
    ∀ (t t' : Tensor) (σ σ' : Store), Call.runs M cs t σ = some (t', σ') →
      t'.buffer_ = t.buffer_ ∧ ∀ id, id ≠ t.buffer_ → σ'.cell id = σ.cell id := by
  induction cs with
  | nil =>
    intro t t' σ σ' h
    simp only [Call.runs, Option.some.injEq, Prod.mk.injEq] at h
    obtain ⟨rfl, rfl⟩ := h
    exact ⟨rfl, fun _ _ => rfl⟩
  | cons c cs ih =>
    intro t t' σ σ' h
    simp only [Call.runs, Option.bind_eq_some] at h
    obtain ⟨x, hx, hrest⟩ := h
    obtain ⟨hb1, hc1⟩ := Call.run_frame M c t x.1 σ x.2 hx
    obtain ⟨hb2, hc2⟩ := ih x.1 t' x.2 σ' hrest
    refine ⟨hb2.trans hb1, fun id hid => ?_⟩
    rw [hc2 id (by rw [hb1]; exact hid), hc1 id hid]

/-! ## Sharing and copying -/

/-- C1: aliasing.  Let `b` have executed `b.ShareDataWith(a)`, and let `a₁` and `b₁` be
`a` and `b` at any later time at which they still hold those Buffer references, in any
store.  If `a₁.mutable_data<float>()` returns the pointer `p` and element `i` of `p` may
be written (the pointer is not null and the element is inside the block), then after
`p[i] = v` the read `b₁.data<float>()[i]` is defined and yields `v`, whatever the Buffer
did in `ResetLazy` (reallocation included). -/
theorem ShareDataWith_write_visible (M : BufferOps) (a b a₁ b₁ : Tensor) (σ₀ σ : Store)
    (i : Nat) (v : Int) (p : Ptr)
    (ha : a₁.buffer_ = a.buffer_)
    (hb : b₁.buffer_ = (b.ShareDataWith a σ₀).self.buffer_)
    (hp : (a₁.mutable_data M 4 σ).ret = some p)
    (hv : (a₁.mutable_data M 4 σ).store.valid p i) :
    ((a₁.mutable_data M 4 σ).store.write p i v).bind
      (fun σ' => σ'.read (b₁.data σ') i) = some v := by
  apply Store.write_then_read _ p i v b₁ hv
  rw [hb, Tensor.mutable_data_ret_cell M 4 a₁ σ p hp, ha]
  rfl

/-- Witness of C1: `a` and `b` default-constructed, `b.ShareDataWith(a)`, then
`a.Resize({2, 3})` and `a.mutable_data<float>()`, which allocates 24 bytes; the value 42
written at element 5 is read back through `b`. -/
theorem ShareDataWith_write_visible_witness :
    ((scene.1.Resize [2, 3] scene.2.2.2).self.mutable_data (specBuffer 1024) 4
        scene.2.2.2).ret = some { cell := 0, addr := 1 } ∧
    ((scene.1.Resize [2, 3] scene.2.2.2).self.mutable_data (specBuffer 1024) 4
        scene.2.2.2).store.valid { cell := 0, addr := 1 } 5 ∧
    (((scene.1.Resize [2, 3] scene.2.2.2).self.mutable_data (specBuffer 1024) 4
        scene.2.2.2).store.write { cell := 0, addr := 1 } 5 42).bind
      (fun σ' => σ'.read ((scene.2.1.ShareDataWith scene.1 scene.2.2.2).self.data σ') 5)
      = some 42 :=
  ⟨by decide, by decide,
   ShareDataWith_write_visible (specBuffer 1024) scene.1 scene.2.1
     (scene.1.Resize [2, 3] scene.2.2.2).self
     (scene.2.1.ShareDataWith scene.1 scene.2.2.2).self scene.2.2.2 scene.2.2.2 5 42
     { cell := 0, addr := 1 } rfl rfl (by decide) (by decide)⟩

/-- C2, as stated, fails: `a` and `b` default-constructed, `b.ShareDataWith(a)`, then
`b.CopyDataFrom(a)`.  The two Tensors still hold the same Buffer, and the later
`a.Resize({2, 3}); a.mutable_data<float>();` changes the pointer and the capacity
observed through `b` (from null and 0 bytes to a block of 24 bytes). -/
theorem CopyDataFrom_after_share_still_aliased :
    ((scene.2.1.ShareDataWith scene.1 scene.2.2.2).self.CopyDataFrom (specBuffer 1024)
        scene.1 scene.2.2.2).self.buffer_ = scene.1.buffer_ ∧
    ((scene.2.1.ShareDataWith scene.1 scene.2.2.2).self.CopyDataFrom (specBuffer 1024)
        scene.1 scene.2.2.2).self.data
      ((scene.2.1.ShareDataWith scene.1 scene.2.2.2).self.CopyDataFrom (specBuffer 1024)
        scene.1 scene.2.2.2).store = { cell := 0, addr := 0 } ∧
    ((scene.2.1.ShareDataWith scene.1 scene.2.2.2).self.CopyDataFrom (specBuffer 1024)
        scene.1 scene.2.2.2).self.data
      (Resize_mutable_data (specBuffer 1024) 4 scene.1 [2, 3]
        ((scene.2.1.ShareDataWith scene.1 scene.2.2.2).self.CopyDataFrom
          (specBuffer 1024) scene.1 scene.2.2.2).store).store = { cell := 0, addr := 1 } ∧
    ((Resize_mutable_data (specBuffer 1024) 4 scene.1 [2, 3]
        ((scene.2.1.ShareDataWith scene.1 scene.2.2.2).self.CopyDataFrom
          (specBuffer 1024) scene.1 scene.2.2.2).store).store.cell 0).space_ = 24 ∧
    (((scene.2.1.ShareDataWith scene.1 scene.2.2.2).self.CopyDataFrom (specBuffer 1024)
        scene.1 scene.2.2.2).store.cell 0).space_ = 0 := by
  decide

/-- C2, amended: if `a` and `b` hold distinct Buffers when `b.CopyDataFrom(a)` is called,
they hold distinct Buffers afterwards, and no later sequence of `Resize`, `mutable_data`
(any overload) and write calls through `a` changes the Buffer (contents, pointer,
capacity, target) observed through `b`, nor does such a sequence through `b` change the
Buffer observed through `a`. -/
theorem CopyDataFrom_independent (M : BufferOps) (a b : Tensor) (σ : Store)
    (h : a.buffer_ ≠ b.buffer_) :
    (b.CopyDataFrom M a σ).self.buffer_ ≠ a.buffer_ ∧
    (∀ (cs : List Call) (a' : Tensor) (σ' : Store),
      Call.runs M cs a (b.CopyDataFrom M a σ).store = some (a', σ') →
      a'.buffer_ ≠ (b.CopyDataFrom M a σ).self.buffer_ ∧
      σ'.cell (b.CopyDataFrom M a σ).self.buffer_
        = (b.CopyDataFrom M a σ).store.cell (b.CopyDataFrom M a σ).self.buffer_ ∧
      (b.CopyDataFrom M a σ).self.data σ'
        = (b.CopyDataFrom M a σ).self.data (b.CopyDataFrom M a σ).store) ∧
    (∀ (cs : List Call) (b' : Tensor) (σ' : Store),
      Call.runs M cs (b.CopyDataFrom M a σ).self (b.CopyDataFrom M a σ).store
        = some (b', σ') →
      b'.buffer_ ≠ a.buffer_ ∧
      σ'.cell a.buffer_ = (b.CopyDataFrom M a σ).store.cell a.buffer_ ∧
      a.data σ' = a.data (b.CopyDataFrom M a σ).store) := by
  have hb : (b.CopyDataFrom M a σ).self.buffer_ = b.buffer_ := rfl
  refine ⟨fun e => h (hb ▸ e).symm, ?_, ?_⟩
  · intro cs a' σ' hr
    obtain ⟨h1, h2⟩ := Call.runs_frame M cs a a' _ σ' hr
    have hc := h2 b.buffer_ (fun e => h e.symm)
    refine ⟨fun e => h ((h1.symm.trans e).trans hb), hc, ?_⟩
    simp only [Tensor.data, hb, hc]
  · intro cs b' σ' hr
    obtain ⟨h1, h2⟩ := Call.runs_frame M cs _ b' _ σ' hr
    have hc := h2 a.buffer_ (fun e => h (e.trans hb))
    refine ⟨fun e => h (e.symm.trans (h1.trans hb)), hc, ?_⟩
    simp only [Tensor.data, hc]

/-- Witness of C2: `a` and `b` default-constructed hold the cells 0 and 1; after
`b.CopyDataFrom(a)` the calls `a.Resize({1}); a.mutable_data<float>(); p[0] = 7;` run
and leave cell 1, the Buffer of `b`, as it was. -/
theorem CopyDataFrom_independent_witness :
    scene.1.buffer_ ≠ scene.2.1.buffer_ ∧
    ∃ (a' : Tensor) (σ' : Store),
      Call.runs (specBuffer 1024) [Call.Resize [1], Call.mutable_data 4, Call.write 0 7]
        scene.1 (scene.2.1.CopyDataFrom (specBuffer 1024) scene.1 scene.2.2.2).store
        = some (a', σ') ∧
      σ'.read (a'.data σ') 0 = some 7 ∧
      σ'.cell 1
        = (scene.2.1.CopyDataFrom (specBuffer 1024) scene.1 scene.2.2.2).store.cell 1 :=
  ⟨by decide,
   (Resize_mutable_data (specBuffer 1024) 4 scene.1 [1]
      (scene.2.1.CopyDataFrom (specBuffer 1024) scene.1 scene.2.2.2).store).self,
   ((Resize_mutable_data (specBuffer 1024) 4 scene.1 [1]
      (scene.2.1.CopyDataFrom (specBuffer 1024) scene.1 scene.2.2.2).store).store.write
      { cell := 0, addr := 1 } 0 7).getD Store.init,
   rfl, by decide,
   ((CopyDataFrom_independent (specBuffer 1024) scene.1 scene.2.1 scene.2.2.2
      (by decide)).2.1 [Call.Resize [1], Call.mutable_data 4, Call.write 0 7] _ _ rfl).2.1⟩

/-- C3, as stated, fails: `a` allocated with shape `[2, 3]` on the host, `b` and `c`
default-constructed, `b.ShareDataWith(c)`, then `b.CopyDataFrom(a)`.  The Buffer held by
`b` afterwards is the one `c` holds, and the Buffer observed through `c` changed: it was
empty before the call and has a block of 24 bytes after it. -/
theorem CopyDataFrom_overwrites_shared_buffer :
    ((scene.2.1.ShareDataWith scene.2.2.1 (host_2x3 (specBuffer 1024)).store).self.CopyDataFrom
        (specBuffer 1024) (host_2x3 (specBuffer 1024)).self
        (host_2x3 (specBuffer 1024)).store).self.buffer_ = scene.2.2.1.buffer_ ∧
    scene.2.2.1.IsInitialized (host_2x3 (specBuffer 1024)).store = false ∧
    ((host_2x3 (specBuffer 1024)).store.cell scene.2.2.1.buffer_).space_ = 0 ∧
    scene.2.2.1.IsInitialized
      ((scene.2.1.ShareDataWith scene.2.2.1 (host_2x3 (specBuffer 1024)).store).self.CopyDataFrom
        (specBuffer 1024) (host_2x3 (specBuffer 1024)).self
        (host_2x3 (specBuffer 1024)).store).store = true ∧
    (((scene.2.1.ShareDataWith scene.2.2.1 (host_2x3 (specBuffer 1024)).store).self.CopyDataFrom
        (specBuffer 1024) (host_2x3 (specBuffer 1024)).self
        (host_2x3 (specBuffer 1024)).store).store.cell scene.2.2.1.buffer_).space_ = 24 := by
  decide

/-- C3, amended: `b.CopyDataFrom(a)` leaves `b` holding the Buffer it held before the
call and creates no Buffer, so the Buffer of `b` is private afterwards exactly when it was
before; and for every Tensor `c` that does not hold the same Buffer as `b`, the Buffer
state (contents, pointer, capacity, target) observed through `c` is the same after the
call as before it. -/
theorem CopyDataFrom_frame (M : BufferOps) (a b c : Tensor) (σ : Store)
    (h : c.buffer_ ≠ b.buffer_) :
    (b.CopyDataFrom M a σ).self.buffer_ = b.buffer_ ∧
    (b.CopyDataFrom M a σ).store.next = σ.next ∧
    (b.CopyDataFrom M a σ).store.cell c.buffer_ = σ.cell c.buffer_ ∧
    c.data (b.CopyDataFrom M a σ).store = c.data σ ∧
    c.IsInitialized (b.CopyDataFrom M a σ).store = c.IsInitialized σ := by
  have hc : (b.CopyDataFrom M a σ).store.cell c.buffer_ = σ.cell c.buffer_ :=
    Store.assign_cell_of_ne M σ b.buffer_ a.buffer_ c.buffer_ h
  refine ⟨rfl, Store.assign_next M σ b.buffer_ a.buffer_, hc, ?_, ?_⟩
  · simp only [Tensor.data, hc]
  · simp only [Tensor.IsInitialized, hc]

/-- Witness of C3: `a` allocated with shape `[2, 3]` on the host, `b` and `c`
default-constructed and not sharing; `c` holds cell 2 and `b` cell 1. -/
theorem CopyDataFrom_frame_witness :
    scene.2.2.1.buffer_ ≠ scene.2.1.buffer_ ∧
    (scene.2.1.CopyDataFrom (specBuffer 1024) (host_2x3 (specBuffer 1024)).self
      (host_2x3 (specBuffer 1024)).store).self.buffer_ = 1 ∧
    (scene.2.1.CopyDataFrom (specBuffer 1024) (host_2x3 (specBuffer 1024)).self
      (host_2x3 (specBuffer 1024)).store).store.cell scene.2.2.1.buffer_
      = (host_2x3 (specBuffer 1024)).store.cell scene.2.2.1.buffer_ ∧
    ((scene.2.1.CopyDataFrom (specBuffer 1024) (host_2x3 (specBuffer 1024)).self
      (host_2x3 (specBuffer 1024)).store).store.cell 1).space_ = 24 :=
  ⟨by decide,
   (CopyDataFrom_frame (specBuffer 1024) (host_2x3 (specBuffer 1024)).self scene.2.1
      scene.2.2.1 (host_2x3 (specBuffer 1024)).store (by decide)).1,
   (CopyDataFrom_frame (specBuffer 1024) (host_2x3 (specBuffer 1024)).self scene.2.1
      scene.2.2.1 (host_2x3 (specBuffer 1024)).store (by decide)).2.2.1,
   by decide⟩

/-! ## Resize followed by a typed allocation -/

/-- C5, as stated, fails for a shape with a zero extent: on a default-constructed Tensor,
`t.Resize({0}); t.mutable_data<float>();` with a Buffer that obeys the `ResetLazy`
contract returns (nothing fails), requests 0 bytes, which the empty Buffer already has,
and leaves `IsInitialized() == false`. -/
theorem Resize_zero_extent_not_initialized :
    (specBuffer 1024).ResetLazy_contract ∧
    (Resize_mutable_data (specBuffer 1024) 4 scene.1 [0] scene.2.2.2).ret
      = some { cell := 0, addr := 0 } ∧
    (Resize_mutable_data (specBuffer 1024) 4 scene.1 [0] scene.2.2.2).self.memory_size = 0 ∧
    (Resize_mutable_data (specBuffer 1024) 4 scene.1 [0] scene.2.2.2).self.IsInitialized
      (Resize_mutable_data (specBuffer 1024) 4 scene.1 [0] scene.2.2.2).store = false :=
  ⟨specBuffer_ResetLazy_contract 1024, by decide, by decide, by decide⟩

/-- C5, amended: for every Tensor `t` whose Buffer owns a block whenever its capacity is
not zero, and every shape `d`, after `t.Resize(d); t.mutable_data<float>();` with the
allocation succeeding and the Buffer obeying the `ResetLazy` contract, `t.dims() == d`,
`t.memory_size()` is the `size_t` value of `product(d) * sizeof(float)` (which is
`product(d) * 4` when `product(d)` is not negative), and `t.IsInitialized() == true`
provided that byte size is not zero. -/
theorem Resize_mutable_data_float (M : BufferOps) (hM : M.ResetLazy_contract) (t : Tensor)
    (d : DDim) (σ : Store) (hB : (σ.cell t.buffer_).owns_block)
    (hok : (Resize_mutable_data M 4 t d σ).ret ≠ none) :
    (Resize_mutable_data M 4 t d σ).self.dims = d ∧
    (Resize_mutable_data M 4 t d σ).self.memory_size = byte_size d 4 ∧
    (0 ≤ product d →
      ((Resize_mutable_data M 4 t d σ).self.memory_size : Int) = product d * 4) ∧
    (0 < byte_size d 4 →
      (Resize_mutable_data M 4 t d σ).self.IsInitialized
        (Resize_mutable_data M 4 t d σ).store = true) := by
  refine ⟨rfl, rfl, fun h => byte_size_of_nonneg d h, fun hpos => ?_⟩
  simp only [Resize_mutable_data, Tensor.Resize, Tensor.mutable_data, Store.ResetLazy,
    Tensor.IsInitialized] at hok ⊢
  cases hR : M.ResetLazy (σ.cell t.buffer_) t.target_ (byte_size d 4) with
  | none => simp [hR] at hok
  | some B' =>
    have hown := ResetLazy_contract_owns_block M hM _ B' _ _ hB hR
    obtain ⟨h1, h2⟩ := hM _ B' _ _ hR
    have hsp : byte_size d 4 ≤ B'.space_ := by
      by_cases hc : (σ.cell t.buffer_).target_ = t.target_ ∧
          byte_size d 4 ≤ (σ.cell t.buffer_).space_
      · rw [h1 hc]; exact hc.2
      · exact le_of_eq (h2 hc).2.1.symm
    have hd : B'.data_ ≠ 0 := hown (by omega)
    simp [hd]

/-- Witness of C5: a default-constructed Tensor, the shape `[2, 3]` and the Buffer of the
spec; 24 bytes are allocated and the Tensor is initialized. -/
theorem Resize_mutable_data_float_witness :
    (specBuffer 1024).ResetLazy_contract ∧
    (scene.2.2.2.cell scene.1.buffer_).owns_block ∧
    (Resize_mutable_data (specBuffer 1024) 4 scene.1 [2, 3] scene.2.2.2).ret ≠ none ∧
    (Resize_mutable_data (specBuffer 1024) 4 scene.1 [2, 3] scene.2.2.2).self.dims = [2, 3] ∧
    (Resize_mutable_data (specBuffer 1024) 4 scene.1 [2, 3] scene.2.2.2).self.memory_size
      = 24 ∧
    (Resize_mutable_data (specBuffer 1024) 4 scene.1 [2, 3] scene.2.2.2).self.IsInitialized
      (Resize_mutable_data (specBuffer 1024) 4 scene.1 [2, 3] scene.2.2.2).store = true :=
  ⟨specBuffer_ResetLazy_contract 1024, by decide, by decide,
   (Resize_mutable_data_float (specBuffer 1024) (specBuffer_ResetLazy_contract 1024)
      scene.1 [2, 3] scene.2.2.2 (by decide) (by decide)).1,
   (Resize_mutable_data_float (specBuffer 1024) (specBuffer_ResetLazy_contract 1024)
      scene.1 [2, 3] scene.2.2.2 (by decide) (by decide)).2.1,
   (Resize_mutable_data_float (specBuffer 1024) (specBuffer_ResetLazy_contract 1024)
      scene.1 [2, 3] scene.2.2.2 (by decide) (by decide)).2.2.2 (by decide)⟩

/-! ## The 32-bit product and the exact product -/

theorem toInt32_modEq (x : Int) : toInt32 x ≡ x [ZMOD 4294967296] := by
  have h : (x + 2147483648) % 4294967296 - 2147483648
      ≡ x + 2147483648 - 2147483648 [ZMOD 4294967296] :=
    (Int.mod_modEq (x + 2147483648) 4294967296).sub_right 2147483648
  simpa [toInt32] using h

theorem toInt32_congr (x y : Int) (h : x ≡ y [ZMOD 4294967296]) : toInt32 x = toInt32 y := by
  have h' : (x + 2147483648) % 4294967296 = (y + 2147483648) % 4294967296 :=
    h.add_right 2147483648
  simp only [toInt32, h']

theorem toInt32_of_fits (x : Int) (h : -2147483648 ≤ x ∧ x < 2147483648) :
    toInt32 x = x := by
  unfold toInt32
  omega

theorem foldl_int32_eq (l : DDim) :
    ∀ a e : Int, a = toInt32 e →
      l.foldl (fun a b => toInt32 (a * toInt32 b)) a
        = toInt32 (l.foldl (fun a b => a * b) e) := by
  induction l with
  | nil => intro a e h; simpa using h
  | cons x xs ih =>
    intro a e h
    simp only [List.foldl_cons]
    apply ih
    apply toInt32_congr
    rw [h]
    exact (toInt32_modEq e).mul (toInt32_modEq x)

theorem product_eq_toInt32_exact (dims : DDim) :
    product dims = toInt32 (exact_product dims) :=
  foldl_int32_eq dims 1 1 (by decide)

theorem exact_product_eq_prod (dims : DDim) : exact_product dims = dims.prod := by
  unfold exact_product
  exact List.prod_eq_foldl.symm

theorem product_of_zero_mem (dims : DDim) (h : (0 : Int) ∈ dims) : product dims = 0 := by
  rw [product_eq_toInt32_exact, exact_product_eq_prod, List.prod_eq_zero h]
  decide

/-- C11: `product` is the multiplicative reduction with identity 1.  For every shape
whose exact product fits in a signed 32-bit `int` (non-negative extents or not),
`product(dims)` is the exact integer product of all extents, and `product` of the empty
shape is 1.  The overload on an iterator range `[begin, end)` of the shape returns, for
every well-formed range, the value `product` has on the extents in the range, hence their
exact product when that fits, and 1 for an empty range. -/
theorem product_is_exact_when_it_fits (dims : DDim) (begin end_ : Nat)
    (hfit : -2147483648 ≤ exact_product dims ∧ exact_product dims < 2147483648)
    (hrange : begin ≤ end_ ∧ end_ ≤ dims.length) :
    product dims = exact_product dims ∧
    product dims = dims.prod ∧
    product [] = 1 ∧
    product_iter dims begin end_ = some (product ((dims.drop begin).take (end_ - begin))) ∧
    ((-2147483648 ≤ exact_product ((dims.drop begin).take (end_ - begin)) ∧
        exact_product ((dims.drop begin).take (end_ - begin)) < 2147483648) →
      product_iter dims begin end_
        = some (exact_product ((dims.drop begin).take (end_ - begin)))) ∧
    product_iter dims begin begin = some 1 := by
  have h1 : product dims = exact_product dims := by
    rw [product_eq_toInt32_exact, toInt32_of_fits _ hfit]
  have h4 : product_iter dims begin end_
      = some (product ((dims.drop begin).take (end_ - begin))) := by
    simp only [product_iter, if_pos hrange, product]
  refine ⟨h1, ?_, by decide, h4, ?_, ?_⟩
  · rw [h1, exact_product_eq_prod]
  · intro hf
    rw [h4, product_eq_toInt32_exact, toInt32_of_fits _ hf]
  · have hb : begin ≤ begin ∧ begin ≤ dims.length := ⟨le_refl _, le_trans hrange.1 hrange.2⟩
    simp [product_iter, hb]

/-- Witness of C11: the shape `[2, 3, 4]` has the exact product 24, which fits, and on
the range of positions `[1, 3)` the overload on iterators returns 12. -/
theorem product_is_exact_when_it_fits_witness :
    (-2147483648 ≤ exact_product [2, 3, 4] ∧ exact_product [2, 3, 4] < 2147483648) ∧
    (1 ≤ 3 ∧ 3 ≤ ([2, 3, 4] : DDim).length) ∧
    product [2, 3, 4] = exact_product [2, 3, 4] ∧
    exact_product [2, 3, 4] = 24 ∧
    product_iter [2, 3, 4] 1 3 = some 12 ∧
    product_iter [2, 3, 4] 1 1 = some 1 :=
  ⟨by decide, by decide,
   (product_is_exact_when_it_fits [2, 3, 4] 1 3 (by decide) (by decide)).1,
   by decide, by decide, by decide⟩

/-- C12: `product(SliceDims(dims, 0, len(dims)))` is claimed to equal `product(dims)` for
every shape of length at least 1.  For `dims = [4, 2]` the code slices `[4]`, whose
product is 4, while `product(dims)` is 8. -/
theorem product_of_full_slice_drops_last_axis :
    SliceDims [4, 2] 0 2 = some [4] ∧
    (SliceDims [4, 2] 0 2).map product = some 4 ∧
    product [4, 2] = 8 := by
  decide

/-- C19: with narrowing and overflow modelled as wrap-around, for every shape `dims`,
`product(dims)` is the exact integer product of the extents reduced modulo `2^32` into
the signed 32-bit range: it lies in `[-2^31, 2^31)` and is congruent to the exact product
modulo `2^32`.  The shape `[65536, 65536]` has the exact product `2^32`, not zero, and
`product` returns 0 on it. -/
theorem product_wraps_modulo_two_pow_32 (dims : DDim) :
    product dims = toInt32 (exact_product dims) ∧
    (-2147483648 ≤ product dims ∧ product dims < 2147483648) ∧
    product dims ≡ exact_product dims [ZMOD 4294967296] ∧
    exact_product [65536, 65536] = 4294967296 ∧
    product [65536, 65536] = 0 := by
  refine ⟨product_eq_toInt32_exact dims, product_range dims, ?_, by decide, by decide⟩
  rw [product_eq_toInt32_exact]
  exact toInt32_modEq _

/-! ## The range that SliceDims constructs -/

/-- C17: `SliceDims` is claimed to construct a well-formed range for all
`0 ≤ begin ≤ end ≤ len(dims)`, and `flatten_to_2d(dims, col)` to make two well-formed
calls for every `0 ≤ col ≤ len(dims)`.  The range ends at `dims.begin() + end - 1`, so
for every shape and every `begin == end` its end is before its begin; hence for every
shape `flatten_to_2d(dims, 0)` and `flatten_to_2d(dims, len(dims))` are undefined, as is
`SliceDims([4, 1], 1, 1)`. -/
theorem SliceDims_empty_range_ill_formed (dims : DDim) (begin : Int) :
    SliceDims dims begin begin = none ∧
    flatten_to_2d dims 0 = none ∧
    flatten_to_2d dims (dims.length : Int) = none ∧
    SliceDims [4, 1] 1 1 = none ∧
    flatten_to_2d [4, 1] 0 = none := by
  have h : ∀ b : Int, SliceDims dims b b = none := by
    intro b
    unfold SliceDims
    rw [if_neg]
    omega
  refine ⟨h begin, ?_, ?_, by decide, by decide⟩
  · unfold flatten_to_2d
    rw [h 0]
  · unfold flatten_to_2d
    rw [h (dims.length : Int)]
    cases SliceDims dims 0 (dims.length : Int) <;> rfl

/-- C18: for every shape `dims` and all `begin`, `end` with `0 ≤ begin < end ≤ len(dims)`,
`SliceDims(dims, begin, end)` is defined and is the extents at the indices
`begin, …, end - 2`: it has length `end - begin - 1`, and its `k`-th element is the
element `dims[begin + k]` of the shape. -/
theorem SliceDims_excludes_axis_before_end (dims : DDim) (begin end_ : Int)
    (h0 : 0 ≤ begin) (h1 : begin < end_) (h2 : end_ ≤ (dims.length : Int)) :
    ∃ l : DDim, SliceDims dims begin end_ = some l ∧
      (l.length : Int) = end_ - begin - 1 ∧
      ∀ k : Nat, (k : Int) < end_ - begin - 1 →
        l[k]? = dims[begin.toNat + k]? ∧ (dims[begin.toNat + k]?).isSome = true := by
  refine ⟨(dims.drop begin.toNat).take (end_ - 1 - begin).toNat, ?_, ?_, ?_⟩
  · unfold SliceDims
    rw [if_pos]
    omega
  · rw [List.length_take, List.length_drop]
    omega
  · intro k hk
    have hlt : k < (end_ - 1 - begin).toNat := by omega
    rw [List.getElem?_take_of_lt hlt, List.getElem?_drop]
    refine ⟨rfl, ?_⟩
    have hb : begin.toNat + k < dims.length := by omega
    simp [List.getElem?_eq_getElem hb]

/-- Witness of C18: on the shape `[4, 1, 7]` with `begin = 0` and `end = 3` the code
returns `[4, 1]`, the extents at the indices 0 and 1. -/
theorem SliceDims_excludes_axis_before_end_witness :
    ((0 : Int) ≤ 0 ∧ (0 : Int) < 3 ∧ (3 : Int) ≤ (([4, 1, 7] : DDim).length : Int)) ∧
    SliceDims [4, 1, 7] 0 3 = some [4, 1] ∧
    ∃ l : DDim, SliceDims [4, 1, 7] 0 3 = some l ∧
      (l.length : Int) = 3 - 0 - 1 ∧
      ∀ k : Nat, (k : Int) < 3 - 0 - 1 →
        l[k]? = ([4, 1, 7] : DDim)[(0 : Int).toNat + k]? ∧
        (([4, 1, 7] : DDim)[(0 : Int).toNat + k]?).isSome = true :=
  ⟨by decide, by decide,
   SliceDims_excludes_axis_before_end [4, 1, 7] 0 3 (by decide) (by decide) (by decide)⟩

/-! ## Frame and failure properties of the Tensor member functions -/

/-- C13: `Resize(d)` always returns and touches only the shape: afterwards
`dims() == d`, while `target()`, `lod()`, `memory_size()`, the Buffer reference and the
whole store (every Buffer with its pointer, capacity and target, and the record of the
calls made on Buffers) are as before, so `IsInitialized()` is unchanged and nothing is
allocated. -/
theorem Resize_touches_only_dims (t : Tensor) (d : DDim) (σ : Store) :
    (t.Resize d σ).ret = some () ∧
    (t.Resize d σ).self.dims = d ∧
    (t.Resize d σ).self.target = t.target ∧
    (t.Resize d σ).self.lod = t.lod ∧
    (t.Resize d σ).self.memory_size = t.memory_size ∧
    (t.Resize d σ).self.buffer_ = t.buffer_ ∧
    (t.Resize d σ).store = σ ∧
    (t.Resize d σ).store.calls = σ.calls ∧
    (t.Resize d σ).self.IsInitialized (t.Resize d σ).store = t.IsInitialized σ ∧
    (t.Resize d σ).self.data (t.Resize d σ).store = t.data σ :=
  ⟨rfl, rfl, rfl, rfl, rfl, rfl, rfl, rfl, rfl, rfl⟩

/-- C14, as stated, fails for the empty shape: a default-constructed Tensor has rank 0,
`product` of the empty shape is 1, and `mutable_data<float>()` calls `ResetLazy` with
size 4 and leaves `memory_size() == 4`. -/
theorem mutable_data_rank_zero_requests_one_element :
    scene.1.dims = [] ∧
    (scene.1.mutable_data (specBuffer 1024) 4 scene.2.2.2).self.memory_size = 4 ∧
    (scene.1.mutable_data (specBuffer 1024) 4 scene.2.2.2).store.calls
      = [BufferCall.ResetLazy 0 kHost 4] := by
  decide

/-- C14, amended: for every Tensor whose shape is zero-sized (some extent is 0) and every
element type `T`, `mutable_data<T>()` calls `ResetLazy` on the Tensor's Buffer with the
Tensor's target and size 0, and leaves `memory_size() == 0`. -/
theorem mutable_data_zero_sized (M : BufferOps) (sizeofT : Nat) (t : Tensor) (σ : Store)
    (h : (0 : Int) ∈ t.dims) :
    (t.mutable_data M sizeofT σ).self.memory_size = 0 ∧
    (t.mutable_data M sizeofT σ).store.calls
      = σ.calls ++ [BufferCall.ResetLazy t.buffer_ t.target 0] := by
  have hb : byte_size t.dims_ sizeofT = 0 := by
    have hp : product t.dims_ = 0 := product_of_zero_mem t.dims_ h
    simp [byte_size, hp, to_size_t]
  refine ⟨hb, ?_⟩
  show (σ.ResetLazy M t.buffer_ t.target_ (byte_size t.dims_ sizeofT)).2.calls = _
  rw [Store.ResetLazy_calls, hb]
  rfl

/-- Witness of C14: a default-constructed Tensor resized to `[2, 0]`. -/
theorem mutable_data_zero_sized_witness :
    (0 : Int) ∈ (scene.1.Resize [2, 0] scene.2.2.2).self.dims ∧
    ((scene.1.Resize [2, 0] scene.2.2.2).self.mutable_data (specBuffer 1024) 4
      scene.2.2.2).self.memory_size = 0 ∧
    ((scene.1.Resize [2, 0] scene.2.2.2).self.mutable_data (specBuffer 1024) 4
      scene.2.2.2).store.calls = [BufferCall.ResetLazy 0 kHost 0] :=
  ⟨by decide,
   (mutable_data_zero_sized (specBuffer 1024) 4 (scene.1.Resize [2, 0] scene.2.2.2).self
      scene.2.2.2 (by decide)).1,
   (mutable_data_zero_sized (specBuffer 1024) 4 (scene.1.Resize [2, 0] scene.2.2.2).self
      scene.2.2.2 (by decide)).2⟩

/-- C15, as stated, fails: with 8 bytes of memory available, on a default-constructed
Tensor resized to `[2, 3]` the call `mutable_data<float>()` fails and leaves
`memory_size() == 24` where it was 0; and `b.CopyDataFrom(a)` of a 24-byte `a` into a
default-constructed `b` fails and leaves `b.dims() == [2, 3]` where it was empty. -/
theorem failed_call_leaves_members_assigned :
    ((Mutation.mutable_data 4).apply (specBuffer 8)
        (scene.1.Resize [2, 3] scene.2.2.2).self scene.2.2.2).ret = none ∧
    (scene.1.Resize [2, 3] scene.2.2.2).self.memory_size = 0 ∧
    ((Mutation.mutable_data 4).apply (specBuffer 8)
        (scene.1.Resize [2, 3] scene.2.2.2).self scene.2.2.2).self.memory_size = 24 ∧
    ((Mutation.CopyDataFrom (host_2x3 (specBuffer 1024)).self).apply (specBuffer 8)
        scene.2.1 (host_2x3 (specBuffer 1024)).store).ret = none ∧
    scene.2.1.dims = [] ∧
    ((Mutation.CopyDataFrom (host_2x3 (specBuffer 1024)).self).apply (specBuffer 8)
        scene.2.1 (host_2x3 (specBuffer 1024)).store).self.dims = [2, 3] := by
  decide

/-- C15, amended: if a mutating Tensor operation fails, the Tensor holds the Buffer
reference it held before the call, and its other members are as before the call except
those the member function assigns before it calls the Buffer: `memory_size_` for
`mutable_data<T>()`, `target_` for `mutable_data<T>(target)` and
`mutable_data(target, size)`, and `dims_`, `target_`, `lod_` for `CopyDataFrom`.  A
failed `mutable_data(size)` leaves the Tensor as it was, and the failing operation is
neither `Resize` nor `ShareDataWith`. -/
theorem failed_call_state (M : BufferOps) (op : Mutation) (t : Tensor) (σ : Store)
    (hfail : (op.apply M t σ).ret = none) :
    (op.apply M t σ).self = op.before_buffer_call t ∧
    (op.apply M t σ).self.buffer_ = t.buffer_ ∧
    (∀ sizeofT, op = Mutation.mutable_data sizeofT →
      (op.apply M t σ).self.target = t.target ∧ (op.apply M t σ).self.dims = t.dims ∧
      (op.apply M t σ).self.lod = t.lod) ∧
    (∀ sizeofT g, op = Mutation.mutable_data_target sizeofT g →
      (op.apply M t σ).self.memory_size = t.memory_size ∧
      (op.apply M t σ).self.dims = t.dims ∧ (op.apply M t σ).self.lod = t.lod) ∧
    (∀ n, op = Mutation.mutable_data_size n → (op.apply M t σ).self = t) ∧
    (∀ g n, op = Mutation.mutable_data_target_size g n →
      (op.apply M t σ).self.memory_size = t.memory_size ∧
      (op.apply M t σ).self.dims = t.dims ∧ (op.apply M t σ).self.lod = t.lod) ∧
    (∀ other, op = Mutation.CopyDataFrom other →
      (op.apply M t σ).self.memory_size = t.memory_size) ∧
    (∀ d, op ≠ Mutation.Resize d) ∧
    (∀ other, op ≠ Mutation.ShareDataWith other) := by
  cases op with
  | Resize ddim => exact absurd hfail (by simp [Mutation.apply, Tensor.Resize])
  | ShareDataWith other =>
    exact absurd hfail (by simp [Mutation.apply, Tensor.ShareDataWith])
  | mutable_data sizeofT =>
    refine ⟨rfl, rfl, ?_, ?_, ?_, ?_, ?_, ?_, ?_⟩
    · intro _ _
      exact ⟨rfl, rfl, rfl⟩
    · intro _ _ h
      cases h
    · intro _ h
      cases h
    · intro _ _ h
      cases h
    · intro _ h
      cases h
    · intro _ h
      cases h
    · intro _ h
      cases h
  | mutable_data_target sizeofT target =>
    refine ⟨rfl, rfl, ?_, ?_, ?_, ?_, ?_, ?_, ?_⟩
    · intro _ h
      cases h
    · intro _ _ _
      exact ⟨rfl, rfl, rfl⟩
    · intro _ h
      cases h
    · intro _ _ h
      cases h
    · intro _ h
      cases h
    · intro _ h
      cases h
    · intro _ h
      cases h
  | mutable_data_size memory_size =>
    refine ⟨rfl, rfl, ?_, ?_, ?_, ?_, ?_, ?_, ?_⟩
    · intro _ h
      cases h
    · intro _ _ h
      cases h
    · intro _ _
      rfl
    · intro _ _ h
      cases h
    · intro _ h
      cases h
    · intro _ h
      cases h
    · intro _ h
      cases h
  | mutable_data_target_size target memory_size =>
    refine ⟨rfl, rfl, ?_, ?_, ?_, ?_, ?_, ?_, ?_⟩
    · intro _ h
      cases h
    · intro _ _ h
      cases h
    · intro _ h
      cases h
    · intro _ _ _
      exact ⟨rfl, rfl, rfl⟩
    · intro _ h
      cases h
    · intro _ h
      cases h
    · intro _ h
      cases h
  | CopyDataFrom other =>
    refine ⟨rfl, rfl, ?_, ?_, ?_, ?_, ?_, ?_, ?_⟩
    · intro _ h
      cases h
    · intro _ _ h
      cases h
    · intro _ h
      cases h
    · intro _ _ h
      cases h
    · intro _ _
      rfl
    · intro _ h
      cases h
    · intro _ h
      cases h

/-- Witness of C15: with 8 bytes of memory available, `mutable_data<float>()` on a
default-constructed Tensor resized to `[2, 3]` fails; the Tensor has its shape, target,
LoD and Buffer reference from before the call and the new `memory_size_` of 24. -/
theorem failed_call_state_witness :
    ((Mutation.mutable_data 4).apply (specBuffer 8)
        (scene.1.Resize [2, 3] scene.2.2.2).self scene.2.2.2).ret = none ∧
    ((Mutation.mutable_data 4).apply (specBuffer 8)
        (scene.1.Resize [2, 3] scene.2.2.2).self scene.2.2.2).self
      = { target_ := kHost, dims_ := [2, 3], buffer_ := 0, lod_ := [], memory_size_ := 24 } ∧
    ((Mutation.mutable_data 4).apply (specBuffer 8)
        (scene.1.Resize [2, 3] scene.2.2.2).self scene.2.2.2).self.buffer_
      = (scene.1.Resize [2, 3] scene.2.2.2).self.buffer_ :=
  ⟨by decide, by decide,
   (failed_call_state (specBuffer 8) (Mutation.mutable_data 4)
      (scene.1.Resize [2, 3] scene.2.2.2).self scene.2.2.2 (by decide)).2.1⟩

/-- C20: `ShareDataWith` and `CopyDataFrom` never assign the cached byte size: after
`b.ShareDataWith(a)` and after `b.CopyDataFrom(a)`, `b.memory_size()` is the value `b`
had before the call, while `b.dims()`, `b.target()` and `b.lod()` are those of `a`, the
Buffer reference is that of `a` after `ShareDataWith` and the one `b` had after
`CopyDataFrom`, whose only call on a Buffer is the copy-assignment from the Buffer of
`a`.  With `a` allocated with shape `[2, 3]` (24 bytes) and `b` default-constructed,
`b.memory_size()` is 0 after either call, not 24, although the Buffer of `b` then has
24 bytes. -/
theorem share_and_copy_keep_memory_size (M : BufferOps) (a b : Tensor) (σ : Store) :
    (b.ShareDataWith a σ).self.memory_size = b.memory_size ∧
    (b.CopyDataFrom M a σ).self.memory_size = b.memory_size ∧
    (b.ShareDataWith a σ).self.buffer_ = a.buffer_ ∧
    (b.ShareDataWith a σ).self.dims = a.dims ∧
    (b.ShareDataWith a σ).self.target = a.target ∧
    (b.ShareDataWith a σ).self.lod = a.lod ∧
    (b.CopyDataFrom M a σ).self.buffer_ = b.buffer_ ∧
    (b.CopyDataFrom M a σ).self.dims = a.dims ∧
    (b.CopyDataFrom M a σ).self.target = a.target ∧
    (b.CopyDataFrom M a σ).self.lod = a.lod ∧
    (b.CopyDataFrom M a σ).store.calls
      = σ.calls ++ [BufferCall.assign b.buffer_ a.buffer_] ∧
    (host_2x3 (specBuffer 1024)).self.memory_size = 24 ∧
    (scene.2.1.ShareDataWith (host_2x3 (specBuffer 1024)).self
        (host_2x3 (specBuffer 1024)).store).self.memory_size = 0 ∧
    (scene.2.1.CopyDataFrom (specBuffer 1024) (host_2x3 (specBuffer 1024)).self
        (host_2x3 (specBuffer 1024)).store).self.memory_size = 0 ∧
    ((scene.2.1.CopyDataFrom (specBuffer 1024) (host_2x3 (specBuffer 1024)).self
        (host_2x3 (specBuffer 1024)).store).store.cell 1).space_ = 24 := by
  refine ⟨rfl, rfl, rfl, rfl, rfl, rfl, rfl, rfl, rfl, rfl, ?_, by decide, by decide,
    by decide, by decide⟩
  show (σ.assign M b.buffer_ a.buffer_).2.calls = _
  unfold Store.assign
  cases M.assign (σ.cell b.buffer_) (σ.cell a.buffer_) <;> rfl

end paddle.lite

namespace paddle.operators

/-! ## Shape inference of the modified Huber loss operator on the code -/

end paddle.operators
